import Mathlib

/-!
# Verification of the week5project relay server and CRUD API

Shallow embedding of `server/server.js`: the WebSocket broadcast relay
(the `wss.on('connection')` message handler with its `wss.clients.forEach`
fan-out loop), the port-selection logic, the lifecycle of the `wss.clients`
set maintained by the `ws` library, and the Express/Mongoose user CRUD
handlers.  Payloads are opaque strings; connection identities are natural
numbers standing for the distinct socket objects.
-/

/- ## WebSocket readyState constants (the `ws` library / WHATWG values) -/

/-- `WebSocket.CONNECTING` -/
def CONNECTING : Nat := 0

/-- `WebSocket.OPEN` -/
def OPEN : Nat := 1

/-- `WebSocket.CLOSING` -/
def CLOSING : Nat := 2

/-- `WebSocket.CLOSED` -/
def CLOSED : Nat := 3

/- ## Connections and the broadcast loop (server.js lines 66-74) -/

/-- A client connection as seen by the broadcast loop: its identity (one per
accepted socket object, so `client !== ws` becomes an identity comparison),
its `readyState`, and the list of payloads delivered to it so far (its
inbox records what `client.send(...)` has handed to its transport). -/
structure Conn where
  id : Nat
  readyState : Nat
  inbox : List String
deriving DecidableEq, Repr

/-- The targets of one execution of the broadcast loop
`wss.clients.forEach(client => { if (client !== ws && client.readyState === WebSocket.OPEN) client.send(message); })`:
the pairs `(client, message)` passed to `client.send`, in iteration order. -/
def broadcastSends (clients : List Conn) (sender : Nat) (message : String) :
    List (Nat × String) :=
  (clients.filter (fun c => c.id != sender && c.readyState == OPEN)).map
    (fun c => (c.id, message))

/-- The effect of one execution of the broadcast loop on the clients
themselves: every client other than the sender whose `readyState` is `OPEN`
has `message` appended to its inbox; every other client is untouched. -/
def broadcastStep (clients : List Conn) (sender : Nat) (message : String) :
    List Conn :=
  clients.map (fun c =>
    if c.id != sender && c.readyState == OPEN then
      { c with inbox := c.inbox ++ [message] }
    else c)

/-- Look up the inbox of the connection with identity `i`. -/
def inboxOf (clients : List Conn) (i : Nat) : Option (List String) :=
  (clients.find? (fun c => c.id == i)).map (fun c => c.inbox)

/- ## The Mongoose user model and the CRUD handlers (server.js) -/

/-- A document of the `loginCredentials` model: `name` and `email` are
required, `linkedinId` and `googleId` optional.  `_id` is the generated
document identity (an opaque fresh value, modelled as a counter). -/
structure UserDoc where
  _id : Nat
  name : String
  email : String
  linkedinId : Option String := none
  googleId : Option String := none
deriving DecidableEq, Repr

/-- The document store: the saved documents and the next fresh `_id`. -/
structure Db where
  docs : List UserDoc
  nextId : Nat
deriving DecidableEq, Repr

/-- Mongoose's required check for a `String` path: the value must be
present and non-empty (`SchemaString.checkRequired`); an absent field of
`req.body` arrives as `undefined`, modelled as `none`. -/
def checkRequired : Option String → Bool
  | some s => s != ""
  | none => false

/-- The body of an HTTP response produced by the handlers. -/
inductive RespBody where
  | usersList (users : List UserDoc)
  | userDoc (u : UserDoc)
  | message (m : String)
deriving DecidableEq, Repr

/-- An HTTP response: status code and JSON body. -/
structure Resp where
  status : Nat
  body : RespBody
deriving DecidableEq, Repr

/-- A sample stored document, used by concrete instances below. -/
def aliceDoc : UserDoc := { _id := 0, name := "Alice", email := "a@x" }

/-- A sample one-document store, used by concrete instances below. -/
def sampleDb : Db := { docs := [aliceDoc], nextId := 1 }

/-- `app.post('/api/users')` (server.js lines 91-100): build a document
from `name` and `email` of the request body and `save()` it.  `save`
validates the two required paths — there is no uniqueness constraint of
any kind — then inserts; success answers `201` with the document,
validation failure is caught and answered with a generic
`500 {message: 'Error creating user'}`. -/
def postUsers (db : Db) (name email : Option String) : Db × Resp :=
  if checkRequired name && checkRequired email then
    let u : UserDoc :=
      { _id := db.nextId, name := name.getD "", email := email.getD "" }
    ({ docs := db.docs ++ [u], nextId := db.nextId + 1 },
     { status := 201, body := .userDoc u })
  else
    (db, { status := 500, body := .message "Error creating user" })

/-- `User.findByIdAndUpdate(id, { name, email }, { new: true })`: if no
document has `_id = i`, the store is untouched and `null` is returned;
otherwise the document is updated (an `undefined` field of the update is
stripped, leaving that path unchanged) and the updated document is
returned (`new: true`). -/
def findByIdAndUpdate (db : Db) (i : Nat) (name email : Option String) :
    Db × Option UserDoc :=
  match db.docs.find? (fun d => d._id == i) with
  | none => (db, none)
  | some d =>
      ({ db with docs := db.docs.map (fun x =>
          if x._id == i then
            { x with name := name.getD x.name, email := email.getD x.email }
          else x) },
       some { d with name := name.getD d.name, email := email.getD d.email })

/-- `app.put('/api/users/:id')` (server.js lines 102-116): run
`findByIdAndUpdate`; a `null` result answers
`404 {message: 'User not found'}`, a document answers `200` with the
updated document. -/
def putUser (db : Db) (i : Nat) (name email : Option String) : Db × Resp :=
  match findByIdAndUpdate db i name email with
  | (db2, none) => (db2, { status := 404, body := .message "User not found" })
  | (db2, some u) => (db2, { status := 200, body := .userDoc u })

/- ## Port selection (server.js lines 60-61) -/

/-- `const wsPort = process.env.NODE_ENV === 'test' ? 0 : 8080;`
`process.env.NODE_ENV` is `none` when the variable is unset.  Port `0`
asks the OS for an ephemeral free port; `8080` is the fixed well-known
port. -/
def wsPort (nodeEnv : Option String) : Nat :=
  if nodeEnv = some "test" then 0 else 8080

/- ## Repeated broadcasts from one sender (sequential message events) -/

/-- The server's event loop handles the `message` events of one sender in
arrival order, running the broadcast loop once per payload.  That the
transport hands the relay a sender's payloads in production order is the
per-connection ordering required of the transport. -/
def relayFromSender (clients : List Conn) (sender : Nat) (msgs : List String) :
    List Conn :=
  msgs.foldl (fun cs m => broadcastStep cs sender m) clients

/-- A per-target send attempt model of the same loop: `sendFails` records
which targets' transports would fail the write.  The loop body calls
`client.send` on every filtered client unconditionally — `forEach` has no
early exit, the loop never inspects a send outcome (the `ws` library reports
write failures asynchronously on the failing socket, not by throwing in the
loop), and nothing is retried — so each eligible target contributes exactly
one attempt, whose outcome is its own. -/
def broadcastAttempts (clients : List Conn) (sender : Nat)
    (sendFails : Nat → Bool) : List (Nat × Bool) :=
  (clients.filter (fun c => c.id != sender && c.readyState == OPEN)).map
    (fun c => (c.id, sendFails c.id))

/- ## Lifecycle of the `wss.clients` set (the Registry)

`server.js` never maintains the client set itself: `wss.clients` is
maintained by the `ws` library.  A socket is added when its handshake
completes (the `connection` event fires with `readyState === OPEN`) and
removed when its `close` event fires (at which point `readyState` becomes
`CLOSED`).  A close initiated by either side first puts the socket into
`readyState === CLOSING`; the socket stays in `wss.clients` until the
close completes.  `server.js` attaches a `close` listener that only logs.
We model executions of this lifecycle as a transition system. -/

/-- A server-side socket: its identity and its current `readyState`. -/
structure SrvConn where
  id : Nat
  readyState : Nat
deriving DecidableEq, Repr

/-- The observable relay state: every socket ever accepted together with
its current `readyState`, and the identities currently in `wss.clients`
(the Registry). -/
structure RelayState where
  conns : List SrvConn
  clientsSet : List Nat
deriving DecidableEq, Repr

/-- Lifecycle events: a handshake completes; a close is initiated by
either side; the `close` event fires (the close completes). -/
inductive Event where
  | connect (id : Nat)
  | beginClose (id : Nat)
  | closeEvent (id : Nat)
deriving DecidableEq, Repr

/-- One lifecycle transition, following the `ws` library: on `connect` the
socket appears `OPEN` and enters `wss.clients`; on `beginClose` an `OPEN`
socket becomes `CLOSING` (membership unchanged); on `closeEvent` the
socket becomes `CLOSED` and is deleted from `wss.clients` (a `Set.delete`,
a no-op when absent). -/
def applyEvent (s : RelayState) : Event → RelayState
  | .connect i =>
      { conns := s.conns ++ [⟨i, OPEN⟩], clientsSet := s.clientsSet ++ [i] }
  | .beginClose i =>
      { s with conns := s.conns.map (fun c =>
          if c.id == i && c.readyState == OPEN then
            { c with readyState := CLOSING }
          else c) }
  | .closeEvent i =>
      { conns := s.conns.map (fun c =>
          if c.id == i then { c with readyState := CLOSED } else c),
        clientsSet := s.clientsSet.filter (fun j => j != i) }

/-- The state before any connection is accepted. -/
def initialRelay : RelayState := { conns := [], clientsSet := [] }

/-- The states an execution can reach.  Each accepted socket is a fresh
object, so a `connect` event always carries an identity not seen before. -/
inductive Reachable : RelayState → Prop where
  | init : Reachable initialRelay
  | connect (s : RelayState) (i : Nat) (hs : Reachable s)
      (hfresh : i ∉ s.conns.map SrvConn.id) :
      Reachable (applyEvent s (.connect i))
  | beginClose (s : RelayState) (i : Nat) (hs : Reachable s) :
      Reachable (applyEvent s (.beginClose i))
  | closeEvent (s : RelayState) (i : Nat) (hs : Reachable s) :
      Reachable (applyEvent s (.closeEvent i))

/- ## Helper lemmas -/

theorem find?_map_of_nodup (f : Conn → Conn) (hf : ∀ x, (f x).id = x.id)
    (clients : List Conn) (c : Conn)
    (hnd : (clients.map Conn.id).Nodup) (hc : c ∈ clients) :
    (clients.map f).find? (fun x => x.id == c.id) = some (f c) := by
  induction clients with
  | nil => cases hc
  | cons h t ih =>
    simp only [List.map_cons, List.map_cons, List.nodup_cons] at hnd
    rcases List.mem_cons.mp hc with rfl | hct
    · simp [List.find?_cons, hf]
    · have hne : h.id ≠ c.id := by
        intro heq
        exact hnd.1 (heq ▸ List.mem_map_of_mem Conn.id hct)
      have hb : ((f h).id == c.id) = false := by
        simp [hf, hne]
      rw [List.map_cons, List.find?_cons, hb]
      exact ih hnd.2 hct

theorem update_inbox_preserves_id (sender : Nat) (ms : List String) :
    ∀ x : Conn,
      ((fun c => if c.id != sender && c.readyState == OPEN then
          { c with inbox := c.inbox ++ ms } else c) x).id = x.id := by
  intro x
  by_cases hx : (x.id != sender && x.readyState == OPEN) = true
  · simp [hx]
  · simp [hx]

theorem inboxOf_broadcastStep (clients : List Conn) (sender : Nat)
    (message : String) (hnd : (clients.map Conn.id).Nodup) (c : Conn)
    (hc : c ∈ clients) :
    inboxOf (broadcastStep clients sender message) c.id =
      some (if c.id != sender && c.readyState == OPEN then
        c.inbox ++ [message] else c.inbox) := by
  rw [inboxOf, broadcastStep,
    find?_map_of_nodup _ (update_inbox_preserves_id sender [message]) clients
      c hnd hc]
  by_cases hx : (c.id != sender && c.readyState == OPEN) = true
  · simp [hx]
  · simp [hx]

theorem relayFromSender_eq (clients : List Conn) (sender : Nat)
    (msgs : List String) :
    relayFromSender clients sender msgs =
      clients.map (fun c =>
        if c.id != sender && c.readyState == OPEN then
          { c with inbox := c.inbox ++ msgs }
        else c) := by
  induction msgs generalizing clients with
  | nil =>
    simp only [relayFromSender, List.foldl_nil]
    have h1 : ∀ c : Conn,
        (if c.id != sender && c.readyState == OPEN then
          { c with inbox := c.inbox ++ ([] : List String) } else c) = c := by
      intro c
      split <;> simp
    rw [List.map_congr_left fun c _ => h1 c]
    exact (List.map_id' clients).symm
  | cons m ms ih =>
    simp only [relayFromSender, List.foldl_cons] at *
    rw [ih (broadcastStep clients sender m)]
    simp only [broadcastStep, List.map_map]
    refine List.map_congr_left fun c _ => ?_
    by_cases hc : (c.id != sender && c.readyState == OPEN) = true
    · simp [Function.comp, hc, List.append_assoc]
    · simp [Function.comp, hc]

/- ## Theorems -/

/-- C1: for every broadcast triggered by an inbound message, the sending
connection is never among the send targets: the sender receives nothing
from its own broadcast, whatever the client set, payload, or states. -/
theorem broadcast_excludes_sender (clients : List Conn) (sender : Nat)
    (message : String) :
    sender ∉ (broadcastSends clients sender message).map Prod.fst := by
  intro hmem
  simp only [broadcastSends, List.map_map, List.mem_map, List.mem_filter,
    Function.comp] at hmem
  obtain ⟨c, ⟨_, hcond⟩, hid⟩ := hmem
  simp only [Bool.and_eq_true, bne_iff_ne, ne_eq, beq_iff_eq] at hcond
  exact hcond.1 hid

/-- C7: the relay binds to the OS-assigned ephemeral port (port 0) exactly
when `NODE_ENV` is `"test"`, and to the fixed well-known port 8080 for every
other value (set or unset) of `NODE_ENV`. -/
theorem wsPort_selection :
    wsPort (some "test") = 0 ∧
    ∀ env : Option String, env ≠ some "test" → wsPort env = 8080 := by
  constructor
  · rfl
  · intro env henv
    simp [wsPort, henv]

/-- Witness for C7: in production (`NODE_ENV` unset) the relay listens on
8080. -/
theorem wsPort_selection_witness : wsPort none = 8080 :=
  wsPort_selection.2 none (by decide)

/-- C2: in a client set with distinct identities, when one connection
sends a payload, every other connection that is `OPEN` receives exactly
that payload, unchanged, appended once to its inbox; a connection that is
not `OPEN` (e.g. closed before delivery) receives nothing.  `broadcastStep`
is a total function, so a closed recipient raises no error to the sender
or to the other recipients: their deliveries are the same regardless. -/
theorem fanout_completeness (clients : List Conn) (sender : Nat) (p : String)
    (hnd : (clients.map Conn.id).Nodup) (c : Conn) (hc : c ∈ clients)
    (hcs : c.id ≠ sender) :
    (c.readyState = OPEN →
      inboxOf (broadcastStep clients sender p) c.id = some (c.inbox ++ [p])) ∧
    (c.readyState ≠ OPEN →
      inboxOf (broadcastStep clients sender p) c.id = some c.inbox) := by
  constructor
  · intro hopen
    rw [inboxOf_broadcastStep clients sender p hnd c hc]
    simp [hcs, hopen]
  · intro hclosed
    rw [inboxOf_broadcastStep clients sender p hnd c hc]
    simp [hclosed]

/-- Witness for C2: three connections 0, 1, 2; 0 sends `"hello"` while 2
is closed.  Connection 1 receives exactly `"hello"`; connection 2 receives
nothing. -/
theorem fanout_completeness_witness :
    inboxOf (broadcastStep
      [⟨0, OPEN, []⟩, ⟨1, OPEN, []⟩, ⟨2, CLOSED, []⟩] 0 "hello") 1 =
      some ["hello"] ∧
    inboxOf (broadcastStep
      [⟨0, OPEN, []⟩, ⟨1, OPEN, []⟩, ⟨2, CLOSED, []⟩] 0 "hello") 2 =
      some [] :=
  ⟨(fanout_completeness [⟨0, OPEN, []⟩, ⟨1, OPEN, []⟩, ⟨2, CLOSED, []⟩] 0
      "hello" (by decide) ⟨1, OPEN, []⟩ (by decide) (by decide)).1 rfl,
   (fanout_completeness [⟨0, OPEN, []⟩, ⟨1, OPEN, []⟩, ⟨2, CLOSED, []⟩] 0
      "hello" (by decide) ⟨2, CLOSED, []⟩ (by decide) (by decide)).2
      (by decide)⟩

/-- C6: when the relay handles the message events of a single sender in
the order the sender produced them (the per-connection ordering required
of the transport, modelled by the sequential fold `relayFromSender`),
every open recipient other than the sender ends with exactly that
sequence of payloads appended to its inbox in the same order.  Nothing is
claimed about interleavings of different senders. -/
theorem single_sender_ordering (clients : List Conn) (sender : Nat)
    (msgs : List String) (hnd : (clients.map Conn.id).Nodup) (c : Conn)
    (hc : c ∈ clients) (hcs : c.id ≠ sender) (hopen : c.readyState = OPEN) :
    inboxOf (relayFromSender clients sender msgs) c.id =
      some (c.inbox ++ msgs) := by
  rw [relayFromSender_eq, inboxOf,
    find?_map_of_nodup _ (update_inbox_preserves_id sender msgs) clients
      c hnd hc]
  simp [hcs, hopen]

/-- Witness for C6: sender 0 produces `"a"`, `"b"`, `"c"`; recipient 1
receives them in exactly that order. -/
theorem single_sender_ordering_witness :
    inboxOf (relayFromSender [⟨0, OPEN, []⟩, ⟨1, OPEN, []⟩] 0
      ["a", "b", "c"]) 1 = some ["a", "b", "c"] :=
  single_sender_ordering [⟨0, OPEN, []⟩, ⟨1, OPEN, []⟩] 0 ["a", "b", "c"]
    (by decide) ⟨1, OPEN, []⟩ (by decide) (by decide) rfl

/-- C4: the set of targets the broadcast loop attempts to send to does not
depend on which sends fail (so a failed send to one target never aborts
delivery to the remaining targets of the same broadcast call), and, when
client identities are distinct, each eligible target is attempted exactly
once (a failed send is not retried). -/
theorem failure_isolation (clients : List Conn) (sender : Nat)
    (fails fails2 : Nat → Bool) :
    ((broadcastAttempts clients sender fails).map Prod.fst =
      (broadcastAttempts clients sender fails2).map Prod.fst) ∧
    ((clients.map Conn.id).Nodup → ∀ c ∈ clients, c.id ≠ sender →
      c.readyState = OPEN →
      ((broadcastAttempts clients sender fails).map Prod.fst).count c.id
        = 1) := by
  constructor
  · rw [broadcastAttempts, broadcastAttempts, List.map_map, List.map_map]
    rfl
  · intro hnd c hc hcs hopen
    have hsub :
        ((clients.filter
            (fun c => c.id != sender && c.readyState == OPEN)).map Conn.id).Sublist
          (clients.map Conn.id) :=
      (List.filter_sublist clients).map Conn.id
    have hnd2 := hnd.sublist hsub
    have hmem : c.id ∈ (clients.filter
        (fun c => c.id != sender && c.readyState == OPEN)).map Conn.id := by
      refine List.mem_map_of_mem Conn.id ?_
      rw [List.mem_filter]
      exact ⟨hc, by simp [hcs, hopen]⟩
    rw [broadcastAttempts, List.map_map]
    exact List.count_eq_one_of_mem hnd2 hmem

/-- Witness for C4: three open connections; 0 broadcasts while the send to
target 1 fails.  The attempted targets are the same as in a failure-free
run, and target 2 is still attempted exactly once. -/
theorem failure_isolation_witness :
    ((broadcastAttempts [⟨0, OPEN, []⟩, ⟨1, OPEN, []⟩, ⟨2, OPEN, []⟩] 0
        (fun i => i == 1)).map Prod.fst =
      (broadcastAttempts [⟨0, OPEN, []⟩, ⟨1, OPEN, []⟩, ⟨2, OPEN, []⟩] 0
        (fun _ => false)).map Prod.fst) ∧
    ((broadcastAttempts [⟨0, OPEN, []⟩, ⟨1, OPEN, []⟩, ⟨2, OPEN, []⟩] 0
        (fun i => i == 1)).map Prod.fst).count 2 = 1 :=
  ⟨(failure_isolation [⟨0, OPEN, []⟩, ⟨1, OPEN, []⟩, ⟨2, OPEN, []⟩] 0
      (fun i => i == 1) (fun _ => false)).1,
   (failure_isolation [⟨0, OPEN, []⟩, ⟨1, OPEN, []⟩, ⟨2, OPEN, []⟩] 0
      (fun i => i == 1) (fun _ => false)).2 (by decide) ⟨2, OPEN, []⟩
      (by decide) (by decide) rfl⟩

/-- Counterexample to C3: accept connection 0, then initiate its close.
The reached state has socket 0 in `wss.clients` with `readyState` equal
to `CLOSING`, not `OPEN`, so membership in the Registry is not equivalent
to being `OPEN`. -/
theorem registry_open_iff_cex :
    Reachable (applyEvent (applyEvent initialRelay (.connect 0))
      (.beginClose 0)) ∧
    ¬ (∀ c ∈ (applyEvent (applyEvent initialRelay (.connect 0))
          (.beginClose 0)).conns,
        (c.id ∈ (applyEvent (applyEvent initialRelay (.connect 0))
          (.beginClose 0)).clientsSet ↔ c.readyState = OPEN)) :=
  ⟨Reachable.beginClose _ 0
    (Reachable.connect _ 0 Reachable.init (by decide)), by decide⟩

/-- C3 (amended): at every reachable state, every socket whose state is
`OPEN` is a member of `wss.clients`, and every member of `wss.clients` is
not `CLOSED` (it is `OPEN` or `CLOSING`).  Membership is not equivalent
to being `OPEN` — a `CLOSING` socket remains a member until its close
event fires — which is exactly why the broadcast loop filters the set by
`readyState === WebSocket.OPEN` before sending. -/
theorem registry_membership_invariant (s : RelayState) (hs : Reachable s) :
    ∀ c ∈ s.conns, (c.readyState = OPEN → c.id ∈ s.clientsSet) ∧
      (c.id ∈ s.clientsSet → c.readyState ≠ CLOSED) := by
  induction hs with
  | init =>
    intro c hc
    simp [initialRelay] at hc
  | connect s i hs hfresh ih =>
    intro c hc
    simp only [applyEvent] at hc ⊢
    rcases List.mem_append.mp hc with hc1 | hc2
    · refine ⟨fun hopen => List.mem_append.mpr (Or.inl ((ih c hc1).1 hopen)),
        fun hmem => ?_⟩
      rcases List.mem_append.mp hmem with h1 | h2
      · exact (ih c hc1).2 h1
      · have hci : c.id = i := by simpa using h2
        exact absurd (hci ▸ List.mem_map_of_mem SrvConn.id hc1) hfresh
    · have hceq : c = ⟨i, OPEN⟩ := by simpa using hc2
      subst hceq
      exact ⟨fun _ => List.mem_append.mpr (Or.inr (by simp)),
        fun _ => (by decide : OPEN ≠ CLOSED)⟩
  | beginClose s i hs ih =>
    intro c hc
    simp only [applyEvent] at hc ⊢
    obtain ⟨d, hd, rfl⟩ := List.mem_map.mp hc
    by_cases hcond : (d.id == i && d.readyState == OPEN) = true
    · simp only [hcond, if_true]
      exact ⟨fun hopen => absurd hopen (by decide : CLOSING ≠ OPEN),
        fun _ => (by decide : CLOSING ≠ CLOSED)⟩
    · simp only [hcond, if_false]
      exact ih d hd
  | closeEvent s i hs ih =>
    intro c hc
    simp only [applyEvent] at hc ⊢
    obtain ⟨d, hd, rfl⟩ := List.mem_map.mp hc
    by_cases hdi : (d.id == i) = true
    · simp only [hdi, if_true]
      refine ⟨fun hopen => absurd hopen (by decide : CLOSED ≠ OPEN),
        fun hmem => ?_⟩
      exfalso
      have := (List.mem_filter.mp hmem).2
      simp only [beq_iff_eq] at hdi
      simp [hdi] at this
    · simp only [hdi, if_false]
      have hne : d.id ≠ i := by simpa using hdi
      refine ⟨fun hopen => List.mem_filter.mpr
        ⟨(ih d hd).1 hopen, by simp [hne]⟩,
        fun hmem => (ih d hd).2 (List.mem_filter.mp hmem).1⟩

/-- Witness for C3 (amended): after accepting connection 0, socket 0 is
`OPEN` and is a member of `wss.clients`. -/
theorem registry_membership_invariant_witness :
    (0 : Nat) ∈ (applyEvent initialRelay (.connect 0)).clientsSet :=
  (registry_membership_invariant (applyEvent initialRelay (.connect 0))
    (Reachable.connect _ 0 Reachable.init (by decide)) ⟨0, OPEN⟩
    (by decide)).1 rfl

/-- C5: handling the close event for a connection a second time has no
additional effect — the state after two close events equals the state
after one; the first close event already removes the identity from
`wss.clients`, so exactly one removal occurs; and removing an identity
that is absent leaves `wss.clients` unchanged (a no-op, not an error —
`applyEvent` is total). -/
theorem close_idempotent :
    (∀ (s : RelayState) (i : Nat),
      applyEvent (applyEvent s (.closeEvent i)) (.closeEvent i) =
        applyEvent s (.closeEvent i)) ∧
    (∀ (s : RelayState) (i : Nat),
      i ∉ (applyEvent s (.closeEvent i)).clientsSet) ∧
    (∀ (s : RelayState) (i : Nat), i ∉ s.clientsSet →
      (applyEvent s (.closeEvent i)).clientsSet = s.clientsSet) := by
  refine ⟨fun s i => ?_, fun s i => ?_, fun s i h => ?_⟩
  · simp only [applyEvent, List.map_map, List.filter_filter]
    congr 1
    · refine List.map_congr_left fun c _ => ?_
      by_cases hci : (c.id == i) = true
      · simp [Function.comp, hci]
      · simp [Function.comp, hci]
    · refine List.filter_congr fun j _ => ?_
      simp [Bool.and_self]
  · intro hmem
    have := (List.mem_filter.mp hmem).2
    simp at this
  · simp only [applyEvent]
    refine List.filter_eq_self.mpr fun j hj => ?_
    have : j ≠ i := fun hji => h (hji ▸ hj)
    simpa using this

/-- Witness for C5: with connection 0 accepted, a second close event for 0
changes nothing, 0 is gone after the first, and a close event for the
never-present identity 5 leaves `wss.clients` untouched. -/
theorem close_idempotent_witness :
    (applyEvent (applyEvent { conns := [⟨0, OPEN⟩], clientsSet := [0] }
        (.closeEvent 0)) (.closeEvent 0) =
      applyEvent { conns := [⟨0, OPEN⟩], clientsSet := [0] }
        (.closeEvent 0)) ∧
    (0 : Nat) ∉ (applyEvent { conns := [⟨0, OPEN⟩], clientsSet := [0] }
        (.closeEvent 0)).clientsSet ∧
    (applyEvent { conns := [⟨0, OPEN⟩], clientsSet := [0] }
        (.closeEvent 5)).clientsSet = [0] :=
  ⟨close_idempotent.1 { conns := [⟨0, OPEN⟩], clientsSet := [0] } 0,
   close_idempotent.2.1 { conns := [⟨0, OPEN⟩], clientsSet := [0] } 0,
   close_idempotent.2.2 { conns := [⟨0, OPEN⟩], clientsSet := [0] } 5
     (by decide)⟩

/-- C8: creating a record whose name and email duplicate an existing
record succeeds — status `201`, the store grows by one, no uniqueness
error of any kind — and every create request that fails the Mongoose
required validation (missing or empty `name` or `email`) is answered with
the generic `500 {message: 'Error creating user'}`, not a structured 4xx
status. -/
theorem crud_duplicates_and_validation_500 :
    (∀ (db : Db) (d : UserDoc), d ∈ db.docs → d.name ≠ "" → d.email ≠ "" →
      (postUsers db (some d.name) (some d.email)).2.status = 201 ∧
      (postUsers db (some d.name) (some d.email)).1.docs.length =
        db.docs.length + 1) ∧
    (∀ (db : Db) (name email : Option String),
      (checkRequired name && checkRequired email) = false →
      postUsers db name email =
        (db, { status := 500, body := .message "Error creating user" })) := by
  constructor
  · intro db d _ hn he
    constructor <;> simp [postUsers, checkRequired, hn, he]
  · intro db name email h
    simp [postUsers, h]

/-- Witness for C8: with `{_id 0, name "Alice", email "a@x"}` stored,
posting the same name and email again answers `201` and stores a second
record, and posting without a name answers `500`. -/
theorem crud_duplicates_and_validation_500_witness :
    (postUsers sampleDb (some "Alice") (some "a@x")).2.status = 201 ∧
    (postUsers sampleDb (some "Alice") (some "a@x")).1.docs.length = 2 ∧
    postUsers sampleDb none (some "a@x") =
      (sampleDb, { status := 500, body := .message "Error creating user" }) :=
  ⟨(crud_duplicates_and_validation_500.1 sampleDb aliceDoc (by decide)
      (by decide) (by decide)).1,
   (crud_duplicates_and_validation_500.1 sampleDb aliceDoc (by decide)
      (by decide) (by decide)).2,
   crud_duplicates_and_validation_500.2 sampleDb none (some "a@x")
     (by decide)⟩

/-- C9: a `PUT /api/users/:id` whose id matches no stored document is
answered with status `404` and body `{message: 'User not found'}`, and
the store is left exactly as it was — no document is created or
modified. -/
theorem put_missing_user (db : Db) (i : Nat) (name email : Option String)
    (habs : ∀ d ∈ db.docs, d._id ≠ i) :
    putUser db i name email =
      (db, { status := 404, body := .message "User not found" }) := by
  have hf : db.docs.find? (fun d => d._id == i) = none :=
    List.find?_eq_none.mpr fun d hd => by simp [habs d hd]
  simp [putUser, findByIdAndUpdate, hf]

/-- Witness for C9: updating id 7 in a store holding only id 0 answers
404 and changes nothing. -/
theorem put_missing_user_witness :
    putUser sampleDb 7 (some "Bob") (some "b@x") =
      (sampleDb, { status := 404, body := .message "User not found" }) :=
  put_missing_user sampleDb 7 (some "Bob") (some "b@x") (by decide)

/-- C10: a `POST /api/users` whose body carries a (non-empty) name and
email is answered with status `201`, the body is the newly saved document
— its generated `_id` together with exactly the submitted name and email —
and that document is appended to the store; the generated `_id` is fresh
(no stored document already carries it) whenever the store is
well-formed. -/
theorem post_valid_user (db : Db) (n e : String) (hn : n ≠ "") (he : e ≠ "")
    (hwf : ∀ d ∈ db.docs, d._id < db.nextId) :
    postUsers db (some n) (some e) =
      ({ docs := db.docs ++ [{ _id := db.nextId, name := n, email := e }],
         nextId := db.nextId + 1 },
       { status := 201,
         body := .userDoc { _id := db.nextId, name := n, email := e } }) ∧
    db.nextId ∉ db.docs.map UserDoc._id := by
  constructor
  · simp [postUsers, checkRequired, hn, he]
  · intro hmem
    obtain ⟨d, hd, hid⟩ := List.mem_map.mp hmem
    exact Nat.ne_of_lt (hwf d hd) hid

/-- Witness for C10: posting name `"Bob"`, email `"b@x"` to a store
holding one document answers 201 with the new document `_id = 1` and
appends it. -/
theorem post_valid_user_witness :
    postUsers sampleDb (some "Bob") (some "b@x") =
      ({ docs := [aliceDoc, { _id := 1, name := "Bob", email := "b@x" }],
         nextId := 2 },
       { status := 201,
         body := .userDoc { _id := 1, name := "Bob", email := "b@x" } }) ∧
    (1 : Nat) ∉ sampleDb.docs.map UserDoc._id :=
  post_valid_user sampleDb "Bob" "b@x" (by decide) (by decide) (by decide)
